import Mathlib

/-!
Shallow embedding of the shadow-cache subsystem of the fvtt-elevated-vision
repository: the `ShadowTextureRenderer` texture-sizing logic, the
`_configureRenderedPointSource` / `destroyRenderedPointSource` wraps, the
wall-document hooks, `initializeSourceShadersHook`, the `addShadowFragmentCode`
fragment patcher, and the disconnected visibility-polygon `Segment` class.

Numbers are modelled as exact rationals (the JavaScript arithmetic involved is
exact on the inputs of interest), object fields that may be `undefined` as
`Option`, and in-place mutation as explicit state passing.  Each handler
additionally returns a trace of the externally visible operations it performs
(rasterizations, texture resizes, asset constructions and destructions), and a
`Bool` that records whether the JavaScript would have thrown a `TypeError`
(reading a property of `undefined`); `false` means the handler ran to
completion without raising.
-/

namespace ElevatedVision

/-! ### ShadowTextureRenderer (ShadowTextureRenderer.js)

`static MAX_TEXTURE_SIZE = 4096`, and the `width`, `height`, `resolution` and
`topLeft` getters.  `ShadowVisionLOSTextureRenderer` overrides `width`,
`height` and `topLeft` to the full canvas dimensions and the scene origin. -/

def MAX_TEXTURE_SIZE : ℚ := 4096

/-- The slice of `RenderedPointSource` the renderer getters read: position and
radius. -/
structure STRSource where
  x : ℚ
  y : ℚ
  radius : ℚ
  deriving DecidableEq, Repr

/-- `canvas.dimensions`, read by the line-of-sight variant. -/
structure CanvasDims where
  width : ℚ
  height : ℚ
  deriving DecidableEq, Repr

namespace ShadowTextureRenderer

/-- `get width() { return this.source.radius * 2; }` -/
def width (s : STRSource) : ℚ := s.radius * 2

/-- `get height() { return this.source.radius * 2; }` -/
def height (s : STRSource) : ℚ := s.radius * 2

/-- The body of `get resolution()`, as a function of the (virtual) `width` and
`height` getters it reads:
`let resolution = 1;`
`const maxSize = Math.min(MAX_TEXTURE_SIZE, resolution * Math.max(width, height));`
`if ( width >= height ) resolution = maxSize / width; else resolution = maxSize / height;` -/
def resolutionOf (w h : ℚ) : ℚ :=
  let resolution : ℚ := 1
  let maxSize := min MAX_TEXTURE_SIZE (resolution * max w h)
  if h ≤ w then maxSize / w else maxSize / h

/-- `get resolution()` of the base class, whose `width`/`height` getters read
the source radius. -/
def resolution (s : STRSource) : ℚ := resolutionOf (width s) (height s)

/-- `get topLeft()`: the source position translated by `(-width/2, -height/2)`. -/
def topLeft (s : STRSource) : ℚ × ℚ :=
  (s.x - width s * 0.5, s.y - height s * 0.5)

end ShadowTextureRenderer

namespace ShadowVisionLOSTextureRenderer

/-- `get width() { return canvas.dimensions.width; }` -/
def width (c : CanvasDims) : ℚ := c.width

/-- `get height() { return canvas.dimensions.height; }` -/
def height (c : CanvasDims) : ℚ := c.height

/-- The inherited `resolution` getter dispatches to the overridden
`width`/`height` getters. -/
def resolution (c : CanvasDims) : ℚ :=
  ShadowTextureRenderer.resolutionOf (width c) (height c)

/-- `get topLeft() { return new PIXI.Point(0, 0); }` -/
def topLeft : ℚ × ℚ := (0, 0)

end ShadowVisionLOSTextureRenderer

/-! ### Asset state

The per-source cache object `source[MODULE_ID]` (`ev`) and the assets it owns.
Counters record how often an externally visible operation hit each asset. -/

/-- `PIXI.RenderTexture` state: buffer dimensions and resolution as configured,
plus counters for rasterizations into it and `destroy()` calls on it. -/
structure RenderTexture where
  width : ℚ
  height : ℚ
  resolution : ℚ
  rasterizeCount : Nat := 0
  destroyCount : Nat := 0
  deriving DecidableEq, Repr

/-- `PIXI.RenderTexture.create(this.configureTexture())`: a fresh texture with
the given dimensions and resolution. -/
def createRenderTexture (w h res : ℚ) : RenderTexture :=
  { width := w, height := h, resolution := res }

/-- `renderShadowMeshToTexture()`: anchors the mesh and renders it into the
texture (`canvas.app.renderer.render`), leaving the buffer configuration
unchanged. -/
def renderShadowMeshToTexture (t : RenderTexture) : RenderTexture :=
  { t with rasterizeCount := t.rasterizeCount + 1 }

/-- `updateSourceRadius()`:
`this.renderTexture.setResolution(this.resolution);`
`this.renderTexture.resize(this.width, this.height, true);`
`return this.renderShadowMeshToTexture();`
The getters re-read the (already updated) source radius. -/
def updateSourceRadius (s : STRSource) (t : RenderTexture) : RenderTexture :=
  renderShadowMeshToTexture { t with
    resolution := ShadowTextureRenderer.resolution s
    width := ShadowTextureRenderer.width s
    height := ShadowTextureRenderer.height s }

/-- `ShadowTextureRenderer.destroy()`: `this.renderTexture.destroy();` — one
unconditional forward to the underlying texture, with no guard against an
already-destroyed texture. -/
def ShadowTextureRenderer.destroy (t : RenderTexture) : RenderTexture :=
  { t with destroyCount := t.destroyCount + 1 }

/-- Modelled from the spec: `SourceShadowWallGeometry` (imported from
`./glsl/SourceShadowWallGeometry.js`, which is not under `src/`) holds the
per-source index of occluding walls, identified by id. -/
structure WallGeometry where
  walls : List Nat
  deriving DecidableEq, Repr

/-- Modelled from the spec: `removeWall(id)` drops the wall with the given id
from the index; a no-op if the id is absent. -/
def WallGeometry.removeWall (g : WallGeometry) (id : Nat) : WallGeometry :=
  { walls := g.walls.filter (fun w => w != id) }

/-- `ShadowWallPointSourceMesh` state: the mesh is built once from the wall
geometry; `updateLightPosition()` only refreshes its light-position uniform. -/
structure Mesh where
  lightPositionUpdates : Nat := 0
  deriving DecidableEq, Repr

/-- `updateLightPosition()` on a shadow mesh: a uniform refresh, not a rebuild. -/
def Mesh.updateLightPosition (m : Mesh) : Mesh :=
  { lightPositionUpdates := m.lightPositionUpdates + 1 }

/-- A `PIXI.Mesh` vision mask: its `position` and `scale`. -/
structure Mask where
  posX : ℚ := 0
  posY : ℚ := 0
  scaleX : ℚ := 1
  scaleY : ℚ := 1
  deriving DecidableEq, Repr

/-- `mask.position.copyFrom(source)`. -/
def Mask.copyPosition (s : STRSource) (m : Mask) : Mask :=
  { m with posX := s.x, posY := s.y }

/-- `mask.scale = { x: r, y: r }`. -/
def Mask.setScale (r : ℚ) (m : Mask) : Mask :=
  { m with scaleX := r, scaleY := r }

/-- The testing `EVQuadMesh`; `updateGeometry(bounds)` is counted. -/
structure Quad where
  geometryUpdates : Nat := 0
  deriving DecidableEq, Repr

/-- `quad.updateGeometry(ev.shadowRenderer.sourceBounds)`. -/
def Quad.updateGeometry (q : Quad) : Quad :=
  { geometryUpdates := q.geometryUpdates + 1 }

/-- The cache object `source[MODULE_ID]`.  Every field starts `undefined`
(`none`).  `geom` appears only in `_configureRenderedPointSource`
(`ev.geom?.refreshWalls()`); no code path ever assigns it. -/
structure EV where
  geom : Option WallGeometry := none
  wallGeometry : Option WallGeometry := none
  shadowMesh : Option Mesh := none
  shadowRenderer : Option RenderTexture := none
  shadowVisionMask : Option Mask := none
  shadowVisionLOSMesh : Option Mesh := none
  shadowVisionLOSRenderer : Option RenderTexture := none
  shadowVisionLOSMask : Option Mask := none
  shadowQuadMesh : Option Quad := none
  losGeometry : Option Unit := none
  deriving DecidableEq, Repr

/-- The externally visible operations a handler performs, in order. -/
inductive Action where
  | refreshWalls
  | updateLightPosition (los : Bool)
  | updateLOSGeometry
  | rasterize (los : Bool)
  | setResolution
  | resizeTexture
  | quadUpdateGeometry
  | maskPositionCopy
  | maskSetScale
  | buildWallGeometry
  | buildShadowMesh (los : Bool)
  | buildRenderer (los : Bool)
  | buildVisionMask (los : Bool)
  | buildQuadMesh
  | removeWall (id : Nat)
  | updateWall (id : Nat)
  | addWall (id : Nat)
  | destroyAsset (name : String)
  deriving DecidableEq, Repr

/-- The kind of `RenderedPointSource`; `GlobalLightSource` is the excluded
global illumination source, `vision` corresponds to `VisionSource`. -/
inductive SourceKind where
  | light
  | vision
  | globalLight
  | sound
  deriving DecidableEq, Repr

/-- A source as the hooks see it: its kind, the fields the renderer getters
read, and the attached cache `source[MODULE_ID]` (absent when no
shader-initialization has run for it). -/
structure HookSource where
  kind : SourceKind
  src : STRSource
  ev : Option EV := none
  deriving DecidableEq, Repr

/-! ### `_configureRenderedPointSource` (patch file)

The wrap receives the `changes` object after `wrapped(changes)` has applied it
to the source, so `src` below already carries the new values.  The result is
`(new cache, trace, threw)`: `threw = true` when the JavaScript would raise a
`TypeError` (`ev.shadowQuadMesh?.updateGeometry(ev.shadowRenderer.sourceBounds)`
with `shadowRenderer` undefined, or the unguarded `ev.shadowVisionMask`
accesses); the state and trace then reflect the operations performed before the
throw. -/

/-- Which keys the flattened `changes` object owns, per
`Object.hasOwn(changes, "x" | "y" | "radius" | "elevation")`. -/
structure ChangeSet where
  hasX : Bool
  hasY : Bool
  hasRadius : Bool
  hasElevation : Bool
  deriving DecidableEq, Repr

def _configureRenderedPointSource (isVision : Bool) (src : STRSource)
    (ev : Option EV) (changes : ChangeSet) : Option EV × List Action × Bool :=
  match ev with
  | none => (none, [], false)
  | some ev0 =>
    let changedPosition := changes.hasX || changes.hasY
    let changedRadius := changes.hasRadius
    let changedElevation := changes.hasElevation
    let step1 : EV × List Action :=
      if changedPosition || changedElevation || changedRadius then
        let a1 := if ev0.geom.isSome then [Action.refreshWalls] else []
        let a2 := if ev0.shadowMesh.isSome then [Action.updateLightPosition false] else []
        let a3 := if ev0.shadowVisionLOSMesh.isSome then [Action.updateLightPosition true] else []
        let evA := { ev0 with
          shadowMesh := ev0.shadowMesh.map Mesh.updateLightPosition
          shadowVisionLOSMesh := ev0.shadowVisionLOSMesh.map Mesh.updateLightPosition }
        if isVision then
          ({ evA with losGeometry := some () }, a1 ++ a2 ++ a3 ++ [Action.updateLOSGeometry])
        else (evA, a1 ++ a2 ++ a3)
      else (ev0, [])
    let ev1 := step1.1
    let acts1 := step1.2
    if changedPosition then
      let ev2 := { ev1 with
        shadowRenderer := ev1.shadowRenderer.map renderShadowMeshToTexture
        shadowVisionLOSRenderer := ev1.shadowVisionLOSRenderer.map renderShadowMeshToTexture }
      let acts2 := (if ev1.shadowRenderer.isSome then [Action.rasterize false] else []) ++
        (if ev1.shadowVisionLOSRenderer.isSome then [Action.rasterize true] else [])
      if ev2.shadowQuadMesh.isSome && !ev2.shadowRenderer.isSome then
        (some ev2, acts1 ++ acts2, true)
      else
        let ev3 := { ev2 with shadowQuadMesh := ev2.shadowQuadMesh.map Quad.updateGeometry }
        let acts3 := acts2 ++ (if ev2.shadowQuadMesh.isSome then [Action.quadUpdateGeometry] else [])
        match ev3.shadowVisionMask with
        | none => (some ev3, acts1 ++ acts3, true)
        | some mask =>
          (some { ev3 with shadowVisionMask := some (Mask.copyPosition src mask) },
            acts1 ++ acts3 ++ [Action.maskPositionCopy], false)
    else if changedRadius then
      let ev2 := { ev1 with shadowRenderer := ev1.shadowRenderer.map (updateSourceRadius src) }
      let acts2 :=
        if ev1.shadowRenderer.isSome then
          [Action.setResolution, Action.resizeTexture, Action.rasterize false]
        else []
      if ev2.shadowQuadMesh.isSome && !ev2.shadowRenderer.isSome then
        (some ev2, acts1 ++ acts2, true)
      else
        let ev3 := { ev2 with shadowQuadMesh := ev2.shadowQuadMesh.map Quad.updateGeometry }
        let acts3 := acts2 ++ (if ev2.shadowQuadMesh.isSome then [Action.quadUpdateGeometry] else [])
        match ev3.shadowVisionMask with
        | none => (some ev3, acts1 ++ acts3, true)
        | some mask =>
          (some { ev3 with shadowVisionMask := some (Mask.setScale src.radius mask) },
            acts1 ++ acts3 ++ [Action.maskSetScale], false)
    else if changedElevation then
      (some { ev1 with
          shadowRenderer := ev1.shadowRenderer.map renderShadowMeshToTexture
          shadowVisionLOSRenderer := ev1.shadowVisionLOSRenderer.map renderShadowMeshToTexture },
        acts1 ++ (if ev1.shadowRenderer.isSome then [Action.rasterize false] else []) ++
          (if ev1.shadowVisionLOSRenderer.isSome then [Action.rasterize true] else []),
        false)
    else (some ev1, acts1, false)

/-! ### `destroyRenderedPointSource` (patch file)

`if ( !ev ) return wrapped();` then, for each name in the `assets` array:
`if ( !ev[asset] ) continue; ev[asset].destroy(); ev[asset] = undefined;`
The loop is unrolled below in the array's order.  (`ev.geom` is not in the
array and is left untouched; the preceding `removeChild` call on the canvas is
external to the cache state.) -/

/-- One iteration of the asset loop: skip an unset asset, otherwise destroy it
and clear the field. -/
def destroyStep {α : Type} (name : String) (slot : Option α) : Option α × List Action :=
  match slot with
  | none => (none, [])
  | some _ => (none, [Action.destroyAsset name])

def destroyRenderedPointSource (s : HookSource) : HookSource × List Action :=
  match s.ev with
  | none => (s, [])
  | some ev =>
    let q := destroyStep "shadowQuadMesh" ev.shadowQuadMesh
    let r := destroyStep "shadowRenderer" ev.shadowRenderer
    let m := destroyStep "shadowMesh" ev.shadowMesh
    let w := destroyStep "wallGeometry" ev.wallGeometry
    let vm := destroyStep "shadowVisionMask" ev.shadowVisionMask
    let lk := destroyStep "shadowVisionLOSMask" ev.shadowVisionLOSMask
    let lm := destroyStep "shadowVisionLOSMesh" ev.shadowVisionLOSMesh
    let lr := destroyStep "shadowVisionLOSRenderer" ev.shadowVisionLOSRenderer
    let lg := destroyStep "losGeometry" ev.losGeometry
    let cleared : EV :=
      { geom := ev.geom
        shadowQuadMesh := q.1
        shadowRenderer := r.1
        shadowMesh := m.1
        wallGeometry := w.1
        shadowVisionMask := vm.1
        shadowVisionLOSMask := lk.1
        shadowVisionLOSMesh := lm.1
        shadowVisionLOSRenderer := lr.1
        losGeometry := lg.1 }
    ({ s with ev := some cleared },
      q.2 ++ r.2 ++ m.2 ++ w.2 ++ vm.2 ++ lk.2 ++ lm.2 ++ lr.2 ++ lg.2)

/-! ### `initializeSourceShadersHook` (patch file)

`if ( source instanceof GlobalLightSource ) return;` then the cache and each
asset are created with `??=` / `if (!ev.asset)` guards, the shadow texture is
rendered once, and a vision source additionally gets the LOS mesh, renderer,
rasterization, LOS geometry update and LOS mask.  `initialWalls` stands for
the full wall scan performed by `new PointSourceShadowWallGeometry(source)`
(that class is not under `src/`; modelled from the spec: the index is
pre-populated on cache creation from a full wall-scan). -/

def initializeSourceShadersHook (canvasDims : CanvasDims) (initialWalls : List Nat)
    (s : HookSource) : HookSource × List Action :=
  if s.kind = SourceKind.globalLight then (s, [])
  else
    let ev := s.ev.getD {}
    let g : EV × List Action :=
      match ev.wallGeometry with
      | some _ => (ev, [])
      | none => ({ ev with wallGeometry := some ⟨initialWalls⟩ }, [Action.buildWallGeometry])
    let m : EV × List Action :=
      match g.1.shadowMesh with
      | some _ => (g.1, [])
      | none => ({ g.1 with shadowMesh := some {} }, [Action.buildShadowMesh false])
    let r : EV × List Action :=
      match m.1.shadowRenderer with
      | some _ => (m.1, [])
      | none =>
        ({ m.1 with shadowRenderer := some (createRenderTexture
            (ShadowTextureRenderer.width s.src) (ShadowTextureRenderer.height s.src)
            (ShadowTextureRenderer.resolution s.src)) }, [Action.buildRenderer false])
    let ev4 := { r.1 with shadowRenderer := r.1.shadowRenderer.map renderShadowMeshToTexture }
    let vm : EV × List Action :=
      match ev4.shadowVisionMask with
      | some _ => (ev4, [])
      | none =>
        ({ ev4 with shadowVisionMask := some (Mask.setScale s.src.radius
            (Mask.copyPosition s.src {})) },
          [Action.buildVisionMask false])
    let lv : EV × List Action :=
      if s.kind = SourceKind.vision ∧ vm.1.shadowVisionLOSMesh = none then
        let evL := { vm.1 with
          shadowVisionLOSMesh := some {}
          shadowVisionLOSRenderer := some (renderShadowMeshToTexture (createRenderTexture
            (ShadowVisionLOSTextureRenderer.width canvasDims)
            (ShadowVisionLOSTextureRenderer.height canvasDims)
            (ShadowVisionLOSTextureRenderer.resolution canvasDims)))
          losGeometry := some ()
          shadowVisionLOSMask := some {} }
        (evL, [Action.buildShadowMesh true, Action.buildRenderer true, Action.rasterize true,
          Action.updateLOSGeometry, Action.buildVisionMask true])
      else (vm.1, [])
    let qd : EV × List Action :=
      match lv.1.shadowQuadMesh with
      | some _ => (lv.1, [])
      | none => ({ lv.1 with shadowQuadMesh := some {} }, [Action.buildQuadMesh])
    ({ s with ev := some qd.1 },
      g.2 ++ m.2 ++ r.2 ++ [Action.rasterize false] ++ vm.2 ++ lv.2 ++ qd.2)

/-! ### Wall document hooks (patch file)

Each hook gathers `canvas.effects.lightSources`, `canvas.effects.visionSources`
and `canvas.sounds.sources` into one list and visits every source:
`const ev = src[MODULE_ID]; if ( !ev ) continue;` then the guarded calls on the
wall geometry and the shadow renderer.  The per-source body is factored out so
the fan-out is literally a `map` over the gathered list. -/

/-- The body of `deleteWallHook`'s loop for one source:
`ev.wallGeometry?.removeWall(wallD.id); ev.shadowRenderer?.update();` -/
def deleteWallHookSource (wallId : Nat) (s : HookSource) : HookSource × List Action :=
  match s.ev with
  | none => (s, [])
  | some ev =>
    ({ s with ev := some { ev with
        wallGeometry := ev.wallGeometry.map (fun g => g.removeWall wallId)
        shadowRenderer := ev.shadowRenderer.map renderShadowMeshToTexture } },
      (if ev.wallGeometry.isSome then [Action.removeWall wallId] else []) ++
        (if ev.shadowRenderer.isSome then [Action.rasterize false] else []))

def deleteWallHook (wallId : Nat) (sources : List HookSource) : List HookSource :=
  sources.map (fun s => (deleteWallHookSource wallId s).1)

/-- The body of `createWallHook`'s loop for one source:
`ev.wallGeometry?.addWall(wallD.object); ev.shadowRenderer?.update();`
`addWall` lives in the missing `SourceShadowWallGeometry.js`; modelled from
the spec: it accepts the wall into the index when the index's
spatial/elevation filter finds it relevant, else rejects it — the resulting
index transformation is abstracted as the parameter `addW`. -/
def createWallHookSource (addW : WallGeometry → WallGeometry) (wallId : Nat)
    (s : HookSource) : HookSource × List Action :=
  match s.ev with
  | none => (s, [])
  | some ev =>
    ({ s with ev := some { ev with
        wallGeometry := ev.wallGeometry.map addW
        shadowRenderer := ev.shadowRenderer.map renderShadowMeshToTexture } },
      (if ev.wallGeometry.isSome then [Action.addWall wallId] else []) ++
        (if ev.shadowRenderer.isSome then [Action.rasterize false] else []))

def createWallHook (addW : WallGeometry → WallGeometry) (wallId : Nat)
    (sources : List HookSource) : List HookSource :=
  sources.map (fun s => (createWallHookSource addW wallId s).1)

/-- The body of `updateWallHook`'s loop for one source:
`ev.wallGeometry?.updateWall(wallD.object, { changes }); ev.shadowRenderer?.update();`
`updateWall` lives in the missing `SourceShadowWallGeometry.js`; modelled from
the spec: it re-evaluates the wall's relevance and either updates, inserts, or
evicts it — the resulting index transformation is abstracted as `updW`. -/
def updateWallHookSource (updW : WallGeometry → WallGeometry) (wallId : Nat)
    (s : HookSource) : HookSource × List Action :=
  match s.ev with
  | none => (s, [])
  | some ev =>
    ({ s with ev := some { ev with
        wallGeometry := ev.wallGeometry.map updW
        shadowRenderer := ev.shadowRenderer.map renderShadowMeshToTexture } },
      (if ev.wallGeometry.isSome then [Action.updateWall wallId] else []) ++
        (if ev.shadowRenderer.isSome then [Action.rasterize false] else []))

/-- `updateWallHook` first computes the flattened changed-key set and returns
early unless a wall-coordinate or a restriction key changed:
`if ( !(changeFlags.WALL_COORDINATES.some(f => changes.has(f))`
`  || changeFlags.WALL_RESTRICTED.some(f => changes.has(f))) ) return;`
then runs the same per-source loop as the other wall hooks.  The contents of
`SourceShadowWallGeometry.CHANGE_FLAGS` live in the missing
`SourceShadowWallGeometry.js`; modelled from the spec: the two key lists
distinguish coordinate changes from restriction-capability changes, and are
taken as the parameters `coordFlags` and `restrictedFlags`. -/
def updateWallHook (coordFlags restrictedFlags : List String)
    (updW : WallGeometry → WallGeometry) (wallId : Nat)
    (changes : List String) (sources : List HookSource) : List HookSource :=
  if coordFlags.any (fun f => changes.contains f) ||
      restrictedFlags.any (fun f => changes.contains f) then
    sources.map (fun s => (updateWallHookSource updW wallId s).1)
  else sources

/-! ### `Segment` / `SegmentPoint` (disconnected visibility-polygon draft)

Only the parts the claims touch.  `almostEqual` is imported from
`./utility.js`, which is not under `src/`; modelled from the spec: it treats
two numbers as equal when they are within `EPSILON` of one another. -/

/-- Modelled from the spec: `almostEqual(a, b, EPSILON)` from the missing
`utility.js` — true when the two numbers differ by less than `EPSILON`. -/
def almostEqual (a b EPSILON : ℚ) : Bool := |a - b| < EPSILON

/-- A 2-D point (`PIXI.Point` / `SegmentPoint` coordinates). -/
structure SPoint where
  x : ℚ
  y : ℚ
  deriving DecidableEq, Repr

/-- `SegmentPoint.prototype.equals(p, EPSILON)`:
`almostEqual(this.x, p.x, EPSILON) && almostEqual(this.y, p.y, EPSILON)`. -/
def SegmentPoint.equals (this p : SPoint) (EPSILON : ℚ := 1 / 100000) : Bool :=
  almostEqual this.x p.x EPSILON && almostEqual this.y p.y EPSILON

/-- A `Segment`: endpoints `A` and `B` of the extended `Ray`. -/
structure Segment where
  A : SPoint
  B : SPoint
  deriving DecidableEq, Repr

/-- `Segment.prototype.isEndpoint(p, EPSILON)` exactly as written: both
disjuncts compare `p` against `this.A`:
`(almostEqual(p.x, this.A.x) && almostEqual(p.y, this.A.y)) ||`
`(almostEqual(p.x, this.A.x) && almostEqual(p.y, this.A.y))`. -/
def Segment.isEndpoint (s : Segment) (p : SPoint) (EPSILON : ℚ := 1 / 100000) : Bool :=
  (almostEqual p.x s.A.x EPSILON && almostEqual p.y s.A.y EPSILON) ||
    (almostEqual p.x s.A.x EPSILON && almostEqual p.y s.A.y EPSILON)

/-! ### `addShadowFragmentCode` (patch_lighting_shaders.js)

`try { source = new ShaderPatcher("frag").setSource(source)...getSource(); }`
`finally { return source; }`
The `ShaderPatcher` chain (imported from `../perfect-vision/shader-patcher.js`,
not under `src/`) is abstracted as a fallible string transformation.  A
`return` inside `finally` swallows any exception from the `try` body; the
assignment to `source` happens only if the whole chain succeeds, so on failure
the function returns the original fragment source unchanged. -/

def addShadowFragmentCode (patchChain : String → Except String String)
    (source : String) : String :=
  match patchChain source with
  | Except.ok patched => patched
  | Except.error _ => source

/-! ### Concrete instances used by witnesses and counterexamples -/

/-- A concrete cached light source whose wall index holds only wall 2. -/
def c2ev : EV :=
  { wallGeometry := some ⟨[2]⟩
    shadowRenderer := some (createRenderTexture 200 200 1) }

def c2source : HookSource :=
  { kind := SourceKind.light, src := ⟨0, 0, 100⟩, ev := some c2ev }

/-- A concrete, fully initialized cache (as `initializeSourceShadersHook`
leaves it for a non-vision source). -/
def readyEV : EV :=
  { wallGeometry := some ⟨[1]⟩
    shadowMesh := some {}
    shadowRenderer := some (createRenderTexture 400 400 1)
    shadowVisionMask := some {}
    shadowQuadMesh := some {} }

/-! ### Helper lemmas -/

theorem destroyStep_fst {α : Type} (n : String) (o : Option α) :
    (destroyStep n o).1 = none := by
  cases o <;> rfl

theorem destroyStep_none {α : Type} (n : String) :
    destroyStep n (none : Option α) = (none, []) := rfl

theorem destroyStep_count {α : Type} (n m : String) (o : Option α) :
    (destroyStep n o).2.count (Action.destroyAsset m) =
      if o.isSome ∧ n = m then 1 else 0 := by
  cases o <;> by_cases h : n = m <;> simp [destroyStep, h, List.count_cons]

theorem count_ite_nil {α : Type} [BEq α] (b : Bool) (l : List α) (a : α) :
    (if b then l else []).count a = if b then l.count a else 0 := by
  cases b <;> simp

/-! ### Claim theorems -/

/-- C1 counterexample: at radius 100 the computed resolution is 1, yet 2 also
satisfies both `2 ≤ MAX_TEXTURE_SIZE` and `max(width,height) × 2 ≤
MAX_TEXTURE_SIZE`, and `1 < 2` — so the computed resolution is not the largest
value whose product with `max(width,height)` stays within the budget. -/
theorem resolution_not_largest_at_radius_100 :
    ShadowTextureRenderer.resolution ⟨0, 0, 100⟩ = 1 ∧
    (2 : ℚ) ≤ MAX_TEXTURE_SIZE ∧
    (2 : ℚ) * max (ShadowTextureRenderer.width ⟨0, 0, 100⟩)
        (ShadowTextureRenderer.height ⟨0, 0, 100⟩) ≤ MAX_TEXTURE_SIZE ∧
    ShadowTextureRenderer.resolution ⟨0, 0, 100⟩ < 2 := by
  norm_num [ShadowTextureRenderer.resolution, ShadowTextureRenderer.resolutionOf,
    ShadowTextureRenderer.width, ShadowTextureRenderer.height, MAX_TEXTURE_SIZE]

/-- C1 (amended): for every source with positive radius the computed resolution
equals `min 1 (MAX_TEXTURE_SIZE / max(width, height))` — the largest value not
exceeding 1 (not: not exceeding the budget) whose product with
`max(width, height)` stays within the texel budget — and in particular
`resolution × max(width, height) ≤ MAX_TEXTURE_SIZE` holds. -/
theorem resolution_capped_at_one (s : STRSource) (h : 0 < s.radius) :
    ShadowTextureRenderer.resolution s *
        max (ShadowTextureRenderer.width s) (ShadowTextureRenderer.height s) ≤
      MAX_TEXTURE_SIZE ∧
    ShadowTextureRenderer.resolution s =
      min 1 (MAX_TEXTURE_SIZE /
        max (ShadowTextureRenderer.width s) (ShadowTextureRenderer.height s)) ∧
    ∀ q : ℚ, q ≤ 1 →
      q * max (ShadowTextureRenderer.width s) (ShadowTextureRenderer.height s) ≤
        MAX_TEXTURE_SIZE →
      q ≤ ShadowTextureRenderer.resolution s := by
  have hw : (0 : ℚ) < ShadowTextureRenderer.width s := by
    simp only [ShadowTextureRenderer.width]; linarith
  have hmax : max (ShadowTextureRenderer.width s) (ShadowTextureRenderer.height s) =
      ShadowTextureRenderer.width s := by
    simp [ShadowTextureRenderer.width, ShadowTextureRenderer.height]
  have hres : ShadowTextureRenderer.resolution s =
      min MAX_TEXTURE_SIZE (ShadowTextureRenderer.width s) / ShadowTextureRenderer.width s := by
    simp [ShadowTextureRenderer.resolution, ShadowTextureRenderer.resolutionOf,
      ShadowTextureRenderer.width, ShadowTextureRenderer.height]
  have hform : ShadowTextureRenderer.resolution s =
      min 1 (MAX_TEXTURE_SIZE / ShadowTextureRenderer.width s) := by
    rw [hres, ← min_div_div_right hw.le, div_self hw.ne', min_comm]
  refine ⟨?_, by rw [hform, hmax], ?_⟩
  · rw [hmax, hres, div_mul_cancel₀ _ hw.ne']
    exact min_le_left _ _
  · intro q hq1 hqB
    rw [hform]
    refine le_min hq1 ?_
    rw [le_div_iff₀ hw]
    rw [hmax] at hqB
    exact hqB

/-- C1 witness: the amended statement instantiated at radius 100. -/
theorem resolution_capped_at_one_witness :
    (0 : ℚ) < (100 : ℚ) ∧
    (ShadowTextureRenderer.resolution ⟨0, 0, 100⟩ *
        max (ShadowTextureRenderer.width ⟨0, 0, 100⟩)
          (ShadowTextureRenderer.height ⟨0, 0, 100⟩) ≤ MAX_TEXTURE_SIZE ∧
      ShadowTextureRenderer.resolution ⟨0, 0, 100⟩ =
        min 1 (MAX_TEXTURE_SIZE /
          max (ShadowTextureRenderer.width ⟨0, 0, 100⟩)
            (ShadowTextureRenderer.height ⟨0, 0, 100⟩)) ∧
      ∀ q : ℚ, q ≤ 1 →
        q * max (ShadowTextureRenderer.width ⟨0, 0, 100⟩)
            (ShadowTextureRenderer.height ⟨0, 0, 100⟩) ≤ MAX_TEXTURE_SIZE →
        q ≤ ShadowTextureRenderer.resolution ⟨0, 0, 100⟩) :=
  ⟨by norm_num, resolution_capped_at_one ⟨0, 0, 100⟩ (by norm_num)⟩

/-- C5: the shadow render texture's width and height are both twice the source
radius, while the line-of-sight variant uses the full canvas dimensions and
anchors at the scene origin. -/
theorem renderTexture_dimensions (s : STRSource) (c : CanvasDims) :
    ShadowTextureRenderer.width s = 2 * s.radius ∧
    ShadowTextureRenderer.height s = 2 * s.radius ∧
    ShadowVisionLOSTextureRenderer.width c = c.width ∧
    ShadowVisionLOSTextureRenderer.height c = c.height ∧
    ShadowVisionLOSTextureRenderer.topLeft = (0, 0) := by
  refine ⟨?_, ?_, rfl, rfl, rfl⟩ <;>
    simp [ShadowTextureRenderer.width, ShadowTextureRenderer.height, mul_comm]

/-- C6: a `GlobalLightSource` is returned before any cache work: the
shader-initialization hook leaves the source (including its absent-or-present
cache entry) unchanged and performs no operation. -/
theorem globalLight_never_cached (c : CanvasDims) (walls : List Nat)
    (s : HookSource) (h : s.kind = SourceKind.globalLight) :
    initializeSourceShadersHook c walls s = (s, []) := by
  simp [initializeSourceShadersHook, h]

/-- C6 witness: a concrete global-light source with no cache is untouched. -/
theorem globalLight_never_cached_witness :
    initializeSourceShadersHook ⟨1000, 800⟩ [1, 2]
        { kind := SourceKind.globalLight, src := ⟨5, 5, 100⟩, ev := none } =
      ({ kind := SourceKind.globalLight, src := ⟨5, 5, 100⟩, ev := none }, []) :=
  globalLight_never_cached ⟨1000, 800⟩ [1, 2] _ rfl

/-- C8: both disjuncts of `Segment.isEndpoint` compare against endpoint `A`,
so a point within epsilon of endpoint `B` but not of endpoint `A` is not
recognized as an endpoint. -/
theorem isEndpoint_ignores_B (seg : Segment) (p : SPoint) (ε : ℚ)
    (hB : SegmentPoint.equals p seg.B ε = true)
    (hA : SegmentPoint.equals p seg.A ε = false) :
    Segment.isEndpoint seg p ε = false := by
  have h : (almostEqual p.x seg.A.x ε && almostEqual p.y seg.A.y ε) = false := hA
  simp only [Segment.isEndpoint, Bool.or_self]
  exact h

/-- C8 witness: the point (10,0) is (exactly) endpoint `B` of the segment
(0,0)–(10,0) and far from `A`, yet `isEndpoint` answers `false`. -/
theorem isEndpoint_ignores_B_witness :
    SegmentPoint.equals ⟨10, 0⟩ (⟨⟨0, 0⟩, ⟨10, 0⟩⟩ : Segment).B (1 / 100000) = true ∧
    SegmentPoint.equals ⟨10, 0⟩ (⟨⟨0, 0⟩, ⟨10, 0⟩⟩ : Segment).A (1 / 100000) = false ∧
    Segment.isEndpoint ⟨⟨0, 0⟩, ⟨10, 0⟩⟩ ⟨10, 0⟩ (1 / 100000) = false :=
  ⟨by norm_num [SegmentPoint.equals, almostEqual],
    by norm_num [SegmentPoint.equals, almostEqual],
    isEndpoint_ignores_B ⟨⟨0, 0⟩, ⟨10, 0⟩⟩ ⟨10, 0⟩ (1 / 100000)
      (by norm_num [SegmentPoint.equals, almostEqual])
      (by norm_num [SegmentPoint.equals, almostEqual])⟩

/-- C10: `addShadowFragmentCode` totalizes the patch chain — it always returns
a string; when any patching step fails the exception is swallowed by the
`finally`-block `return` and the original fragment source comes back
unchanged, and on success the patched source is returned. -/
theorem addShadowFragmentCode_total (patchChain : String → Except String String)
    (source : String) :
    (∀ e, patchChain source = Except.error e →
      addShadowFragmentCode patchChain source = source) ∧
    (∀ patched, patchChain source = Except.ok patched →
      addShadowFragmentCode patchChain source = patched) := by
  constructor
  · intro e he
    simp [addShadowFragmentCode, he]
  · intro patched hp
    simp [addShadowFragmentCode, hp]

/-- C10 witness: a failing patch chain returns the original source unchanged. -/
theorem addShadowFragmentCode_total_witness :
    addShadowFragmentCode (fun _ => Except.error "patch failed") "void main()" =
      "void main()" :=
  (addShadowFragmentCode_total (fun _ => Except.error "patch failed") "void main()").1
    "patch failed" rfl

/-- C2 counterexample: wall 1 is deleted; `c2source`'s index holds only wall 2
(it neither contains nor comes to contain wall 1), yet `deleteWallHook`'s body
still re-rasterizes that cache's render target (the rasterize action fires and
the texture's rasterization count rises from 0 to 1). -/
theorem unaffected_cache_rerasterized :
    c2ev.wallGeometry = some ⟨[2]⟩ ∧
    WallGeometry.removeWall ⟨[2]⟩ 1 = ⟨[2]⟩ ∧
    Action.rasterize false ∈ (deleteWallHookSource 1 c2source).2 ∧
    ((deleteWallHookSource 1 c2source).1.ev.bind EV.shadowRenderer).map
        RenderTexture.rasterizeCount = some 1 := by
  refine ⟨rfl, by decide, ?_, ?_⟩ <;> decide

/-- C2 (amended): a wall creation, update, or deletion is routed to every
source holding a cache — `updateWallHook` first returns early, doing no work
for any source, unless a wall-coordinate or restriction key changed — and
every such cache applies the wall delta to its index and then re-rasterizes
its render target unconditionally: exactly once per cache with a renderer,
whether or not its index contained (or comes to contain) the affected wall,
for every possible index transformation. -/
theorem wallChange_rerasterizes_every_cache
    (addW updW : WallGeometry → WallGeometry)
    (coordFlags restrictedFlags changes : List String)
    (wallId : Nat) (sources : List HookSource)
    (s : HookSource) (ev : EV) (t : RenderTexture)
    (hev : s.ev = some ev) (ht : ev.shadowRenderer = some t) :
    deleteWallHook wallId sources =
      sources.map (fun x => (deleteWallHookSource wallId x).1) ∧
    createWallHook addW wallId sources =
      sources.map (fun x => (createWallHookSource addW wallId x).1) ∧
    (coordFlags.any (fun f => changes.contains f) = false →
      restrictedFlags.any (fun f => changes.contains f) = false →
      updateWallHook coordFlags restrictedFlags updW wallId changes sources = sources) ∧
    ((coordFlags.any (fun f => changes.contains f) = true ∨
      restrictedFlags.any (fun f => changes.contains f) = true) →
      updateWallHook coordFlags restrictedFlags updW wallId changes sources =
        sources.map (fun x => (updateWallHookSource updW wallId x).1)) ∧
    ((deleteWallHookSource wallId s).1.ev.bind EV.wallGeometry) =
      ev.wallGeometry.map (fun g => g.removeWall wallId) ∧
    ((createWallHookSource addW wallId s).1.ev.bind EV.wallGeometry) =
      ev.wallGeometry.map addW ∧
    ((updateWallHookSource updW wallId s).1.ev.bind EV.wallGeometry) =
      ev.wallGeometry.map updW ∧
    ((deleteWallHookSource wallId s).1.ev.bind EV.shadowRenderer) =
      some (renderShadowMeshToTexture t) ∧
    ((createWallHookSource addW wallId s).1.ev.bind EV.shadowRenderer) =
      some (renderShadowMeshToTexture t) ∧
    ((updateWallHookSource updW wallId s).1.ev.bind EV.shadowRenderer) =
      some (renderShadowMeshToTexture t) ∧
    (deleteWallHookSource wallId s).2.count (Action.rasterize false) = 1 ∧
    (createWallHookSource addW wallId s).2.count (Action.rasterize false) = 1 ∧
    (updateWallHookSource updW wallId s).2.count (Action.rasterize false) = 1 := by
  refine ⟨rfl, rfl, ?_, ?_, ?_, ?_, ?_, ?_, ?_, ?_, ?_, ?_, ?_⟩
  · intro h1 h2
    unfold updateWallHook
    rw [h1, h2]
    simp
  · intro h12
    unfold updateWallHook
    rcases h12 with h1 | h1 <;> rw [h1] <;> simp
  all_goals
    cases hw : ev.wallGeometry <;>
      simp [deleteWallHookSource, createWallHookSource, updateWallHookSource,
        hev, ht, hw, List.count_append, List.count_cons]

/-- C2 witness: the amended statement at the concrete cache `c2source` for
wall 1, with a concrete inserting `addWall`, a concrete evicting `updateWall`,
concrete change-flag lists, and a changed-key set hitting the coordinate
flags. -/
theorem wallChange_rerasterizes_every_cache_witness :
    deleteWallHook 1 [c2source] =
      [c2source].map (fun x => (deleteWallHookSource 1 x).1) ∧
    createWallHook (fun g => ⟨3 :: g.walls⟩) 1 [c2source] =
      [c2source].map (fun x => (createWallHookSource (fun g => ⟨3 :: g.walls⟩) 1 x).1) ∧
    ((["c"] : List String).any (fun f => (["c"] : List String).contains f) = false →
      (["sight"] : List String).any (fun f => (["c"] : List String).contains f) = false →
      updateWallHook ["c"] ["sight"] (fun g => g.removeWall 2) 1 ["c"] [c2source] =
        [c2source]) ∧
    (((["c"] : List String).any (fun f => (["c"] : List String).contains f) = true ∨
      (["sight"] : List String).any (fun f => (["c"] : List String).contains f) = true) →
      updateWallHook ["c"] ["sight"] (fun g => g.removeWall 2) 1 ["c"] [c2source] =
        [c2source].map (fun x => (updateWallHookSource (fun g => g.removeWall 2) 1 x).1)) ∧
    ((deleteWallHookSource 1 c2source).1.ev.bind EV.wallGeometry) =
      c2ev.wallGeometry.map (fun g => g.removeWall 1) ∧
    ((createWallHookSource (fun g => ⟨3 :: g.walls⟩) 1 c2source).1.ev.bind EV.wallGeometry) =
      c2ev.wallGeometry.map (fun g => ⟨3 :: g.walls⟩) ∧
    ((updateWallHookSource (fun g => g.removeWall 2) 1 c2source).1.ev.bind EV.wallGeometry) =
      c2ev.wallGeometry.map (fun g => g.removeWall 2) ∧
    ((deleteWallHookSource 1 c2source).1.ev.bind EV.shadowRenderer) =
      some (renderShadowMeshToTexture (createRenderTexture 200 200 1)) ∧
    ((createWallHookSource (fun g => ⟨3 :: g.walls⟩) 1 c2source).1.ev.bind EV.shadowRenderer) =
      some (renderShadowMeshToTexture (createRenderTexture 200 200 1)) ∧
    ((updateWallHookSource (fun g => g.removeWall 2) 1 c2source).1.ev.bind EV.shadowRenderer) =
      some (renderShadowMeshToTexture (createRenderTexture 200 200 1)) ∧
    (deleteWallHookSource 1 c2source).2.count (Action.rasterize false) = 1 ∧
    (createWallHookSource (fun g => ⟨3 :: g.walls⟩) 1 c2source).2.count
      (Action.rasterize false) = 1 ∧
    (updateWallHookSource (fun g => g.removeWall 2) 1 c2source).2.count
      (Action.rasterize false) = 1 :=
  wallChange_rerasterizes_every_cache (fun g => ⟨3 :: g.walls⟩)
    (fun g => g.removeWall 2) ["c"] ["sight"] ["c"] 1 [c2source] c2source c2ev
    (createRenderTexture 200 200 1) rfl rfl

/-- C4 counterexample: `ShadowTextureRenderer.destroy` carries no guard — a
second call on the same target invokes the underlying render texture's
`destroy` again (invocation count 2), so it is not a no-op. -/
theorem renderer_destroy_not_noop :
    (ShadowTextureRenderer.destroy (ShadowTextureRenderer.destroy
        (createRenderTexture 200 200 1))).destroyCount = 2 ∧
    ShadowTextureRenderer.destroy (ShadowTextureRenderer.destroy
        (createRenderTexture 200 200 1)) ≠
      ShadowTextureRenderer.destroy (createRenderTexture 200 200 1) := by
  constructor
  · rfl
  · intro h
    have h2 := congrArg RenderTexture.destroyCount h
    simp [ShadowTextureRenderer.destroy] at h2

/-- C4 (amended): destroying a source's cache through
`destroyRenderedPointSource` twice, or destroying a cache some of whose assets
were never set, is safe: the second call destroys nothing and leaves the state
fixed, every asset present before the first call is destroyed exactly once
across both calls, an asset never set is never destroyed, and a source with no
cache at all is returned untouched.  (The no-op guarantee lives in this wrap —
which skips cleared fields — not in `ShadowTextureRenderer.destroy` itself,
which forwards every call to the underlying texture.) -/
theorem cache_destroy_exactly_once (s : HookSource) (ev : EV) (h : s.ev = some ev) :
    (destroyRenderedPointSource (destroyRenderedPointSource s).1).1 =
      (destroyRenderedPointSource s).1 ∧
    (destroyRenderedPointSource (destroyRenderedPointSource s).1).2 = [] ∧
    ((destroyRenderedPointSource s).2.count (Action.destroyAsset "shadowQuadMesh") =
      if ev.shadowQuadMesh.isSome then 1 else 0) ∧
    ((destroyRenderedPointSource s).2.count (Action.destroyAsset "shadowRenderer") =
      if ev.shadowRenderer.isSome then 1 else 0) ∧
    ((destroyRenderedPointSource s).2.count (Action.destroyAsset "shadowMesh") =
      if ev.shadowMesh.isSome then 1 else 0) ∧
    ((destroyRenderedPointSource s).2.count (Action.destroyAsset "wallGeometry") =
      if ev.wallGeometry.isSome then 1 else 0) ∧
    ((destroyRenderedPointSource s).2.count (Action.destroyAsset "shadowVisionMask") =
      if ev.shadowVisionMask.isSome then 1 else 0) ∧
    ((destroyRenderedPointSource s).2.count (Action.destroyAsset "shadowVisionLOSMask") =
      if ev.shadowVisionLOSMask.isSome then 1 else 0) ∧
    ((destroyRenderedPointSource s).2.count (Action.destroyAsset "shadowVisionLOSMesh") =
      if ev.shadowVisionLOSMesh.isSome then 1 else 0) ∧
    ((destroyRenderedPointSource s).2.count (Action.destroyAsset "shadowVisionLOSRenderer") =
      if ev.shadowVisionLOSRenderer.isSome then 1 else 0) ∧
    ((destroyRenderedPointSource s).2.count (Action.destroyAsset "losGeometry") =
      if ev.losGeometry.isSome then 1 else 0) ∧
    (∀ s2 : HookSource, s2.ev = none → destroyRenderedPointSource s2 = (s2, [])) := by
  refine ⟨?_, ?_, ?_, ?_, ?_, ?_, ?_, ?_, ?_, ?_, ?_, ?_⟩
  · simp [destroyRenderedPointSource, h, destroyStep_fst, destroyStep_none]
  · simp [destroyRenderedPointSource, h, destroyStep_fst, destroyStep_none]
  rotate_right 1
  · intro s2 h2
    cases s2 with
    | mk k sc e => cases h2; rfl
  all_goals
    simp [destroyRenderedPointSource, h, List.count_append, destroyStep_count]

/-- C4 witness: the amended statement at a concrete, partially initialized
cache (mesh and renderer set, everything else unset). -/
theorem cache_destroy_exactly_once_witness :
    (destroyRenderedPointSource (destroyRenderedPointSource
        { kind := SourceKind.light, src := ⟨0, 0, 100⟩, ev := some c2ev }).1).1 =
      (destroyRenderedPointSource
        { kind := SourceKind.light, src := ⟨0, 0, 100⟩, ev := some c2ev }).1 ∧
    (destroyRenderedPointSource (destroyRenderedPointSource
        { kind := SourceKind.light, src := ⟨0, 0, 100⟩, ev := some c2ev }).1).2 = [] ∧
    ((destroyRenderedPointSource
        { kind := SourceKind.light, src := ⟨0, 0, 100⟩, ev := some c2ev }).2.count
        (Action.destroyAsset "shadowQuadMesh") =
      if c2ev.shadowQuadMesh.isSome then 1 else 0) ∧
    ((destroyRenderedPointSource
        { kind := SourceKind.light, src := ⟨0, 0, 100⟩, ev := some c2ev }).2.count
        (Action.destroyAsset "shadowRenderer") =
      if c2ev.shadowRenderer.isSome then 1 else 0) ∧
    ((destroyRenderedPointSource
        { kind := SourceKind.light, src := ⟨0, 0, 100⟩, ev := some c2ev }).2.count
        (Action.destroyAsset "shadowMesh") =
      if c2ev.shadowMesh.isSome then 1 else 0) ∧
    ((destroyRenderedPointSource
        { kind := SourceKind.light, src := ⟨0, 0, 100⟩, ev := some c2ev }).2.count
        (Action.destroyAsset "wallGeometry") =
      if c2ev.wallGeometry.isSome then 1 else 0) ∧
    ((destroyRenderedPointSource
        { kind := SourceKind.light, src := ⟨0, 0, 100⟩, ev := some c2ev }).2.count
        (Action.destroyAsset "shadowVisionMask") =
      if c2ev.shadowVisionMask.isSome then 1 else 0) ∧
    ((destroyRenderedPointSource
        { kind := SourceKind.light, src := ⟨0, 0, 100⟩, ev := some c2ev }).2.count
        (Action.destroyAsset "shadowVisionLOSMask") =
      if c2ev.shadowVisionLOSMask.isSome then 1 else 0) ∧
    ((destroyRenderedPointSource
        { kind := SourceKind.light, src := ⟨0, 0, 100⟩, ev := some c2ev }).2.count
        (Action.destroyAsset "shadowVisionLOSMesh") =
      if c2ev.shadowVisionLOSMesh.isSome then 1 else 0) ∧
    ((destroyRenderedPointSource
        { kind := SourceKind.light, src := ⟨0, 0, 100⟩, ev := some c2ev }).2.count
        (Action.destroyAsset "shadowVisionLOSRenderer") =
      if c2ev.shadowVisionLOSRenderer.isSome then 1 else 0) ∧
    ((destroyRenderedPointSource
        { kind := SourceKind.light, src := ⟨0, 0, 100⟩, ev := some c2ev }).2.count
        (Action.destroyAsset "losGeometry") =
      if c2ev.losGeometry.isSome then 1 else 0) ∧
    (∀ s2 : HookSource, s2.ev = none → destroyRenderedPointSource s2 = (s2, [])) :=
  cache_destroy_exactly_once
    { kind := SourceKind.light, src := ⟨0, 0, 100⟩, ev := some c2ev } c2ev rfl

/-- C7: a notification for a source with no cache entry is a no-op for that
source: `_configureRenderedPointSource` returns immediately with no state
change, no action and no raised error; the wall-deletion loop leaves such a
source untouched (`continue`) and still processes every source independently. -/
theorem missingCache_noop (isVision : Bool) (src : STRSource) (changes : ChangeSet)
    (wallId : Nat) (s : HookSource) (sources : List HookSource) (h : s.ev = none) :
    _configureRenderedPointSource isVision src none changes = (none, [], false) ∧
    deleteWallHookSource wallId s = (s, []) ∧
    deleteWallHook wallId sources =
      sources.map (fun x => (deleteWallHookSource wallId x).1) := by
  refine ⟨rfl, ?_, rfl⟩
  cases s with
  | mk k sc e => cases h; rfl

/-- C7 witness: a concrete cache-less sound source is skipped while the cached
light source in the same list is still processed. -/
theorem missingCache_noop_witness :
    _configureRenderedPointSource false ⟨0, 0, 50⟩ none ⟨true, false, true, false⟩ =
      (none, [], false) ∧
    deleteWallHookSource 7 { kind := SourceKind.sound, src := ⟨1, 2, 30⟩, ev := none } =
      ({ kind := SourceKind.sound, src := ⟨1, 2, 30⟩, ev := none }, []) ∧
    deleteWallHook 7 [{ kind := SourceKind.sound, src := ⟨1, 2, 30⟩, ev := none }, c2source] =
      [{ kind := SourceKind.sound, src := ⟨1, 2, 30⟩, ev := none }, c2source].map
        (fun x => (deleteWallHookSource 7 x).1) :=
  missingCache_noop false ⟨0, 0, 50⟩ ⟨true, false, true, false⟩ 7
    { kind := SourceKind.sound, src := ⟨1, 2, 30⟩, ev := none } _ rfl

/-- C3: a change set owning exactly `radius` takes the radius branch: the
render texture's buffer dimensions are resized to the new source dimensions,
its resolution is recomputed from the new radius, it is re-rasterized exactly
once (and the LOS texture not at all), no `TypeError` is raised, and the
shadow mesh is not rebuilt — it only receives a light-position uniform
update. -/
theorem radius_change_resizes_and_rerasterizes_once (isVision : Bool)
    (src : STRSource) (ev : EV) (t : RenderTexture) (mask : Mask)
    (hr : ev.shadowRenderer = some t) (hm : ev.shadowVisionMask = some mask) :
    let r := _configureRenderedPointSource isVision src (some ev) ⟨false, false, true, false⟩
    r.2.2 = false ∧
    (r.1.bind EV.shadowRenderer) = some (updateSourceRadius src t) ∧
    (updateSourceRadius src t).width = ShadowTextureRenderer.width src ∧
    (updateSourceRadius src t).height = ShadowTextureRenderer.height src ∧
    (updateSourceRadius src t).resolution = ShadowTextureRenderer.resolution src ∧
    (updateSourceRadius src t).rasterizeCount = t.rasterizeCount + 1 ∧
    r.2.1.count (Action.rasterize false) = 1 ∧
    r.2.1.count (Action.rasterize true) = 0 ∧
    r.2.1.count Action.setResolution = 1 ∧
    r.2.1.count Action.resizeTexture = 1 ∧
    r.2.1.count (Action.buildShadowMesh false) = 0 ∧
    r.2.1.count (Action.buildShadowMesh true) = 0 ∧
    (r.1.bind EV.shadowMesh) = ev.shadowMesh.map Mesh.updateLightPosition := by
  cases hg : ev.geom <;> cases hsm : ev.shadowMesh <;>
    cases hlm : ev.shadowVisionLOSMesh <;> cases hq : ev.shadowQuadMesh <;>
      cases isVision <;>
        simp [_configureRenderedPointSource, hr, hm, hg, hsm, hlm, hq,
          updateSourceRadius, renderShadowMeshToTexture, List.count_append,
          List.count_cons]

/-- C3 witness: the radius-only change on the concrete ready cache `readyEV`
after the radius moved to 50. -/
theorem radius_change_resizes_and_rerasterizes_once_witness :
    (let r := _configureRenderedPointSource false ⟨0, 0, 50⟩ (some readyEV)
      ⟨false, false, true, false⟩
    r.2.2 = false ∧
    (r.1.bind EV.shadowRenderer) =
      some (updateSourceRadius ⟨0, 0, 50⟩ (createRenderTexture 400 400 1)) ∧
    (updateSourceRadius ⟨0, 0, 50⟩ (createRenderTexture 400 400 1)).width =
      ShadowTextureRenderer.width ⟨0, 0, 50⟩ ∧
    (updateSourceRadius ⟨0, 0, 50⟩ (createRenderTexture 400 400 1)).height =
      ShadowTextureRenderer.height ⟨0, 0, 50⟩ ∧
    (updateSourceRadius ⟨0, 0, 50⟩ (createRenderTexture 400 400 1)).resolution =
      ShadowTextureRenderer.resolution ⟨0, 0, 50⟩ ∧
    (updateSourceRadius ⟨0, 0, 50⟩ (createRenderTexture 400 400 1)).rasterizeCount =
      (createRenderTexture 400 400 1).rasterizeCount + 1 ∧
    r.2.1.count (Action.rasterize false) = 1 ∧
    r.2.1.count (Action.rasterize true) = 0 ∧
    r.2.1.count Action.setResolution = 1 ∧
    r.2.1.count Action.resizeTexture = 1 ∧
    r.2.1.count (Action.buildShadowMesh false) = 0 ∧
    r.2.1.count (Action.buildShadowMesh true) = 0 ∧
    (r.1.bind EV.shadowMesh) = readyEV.shadowMesh.map Mesh.updateLightPosition) :=
  radius_change_resizes_and_rerasterizes_once false ⟨0, 0, 50⟩ readyEV
    (createRenderTexture 400 400 1) {} rfl rfl

/-- C9: whenever the change set owns `x` or `y`, the position branch runs and
the radius branch is unreachable — even when `radius` changed in the same
notification, the render texture is never resized and its resolution is never
recomputed (its configured width, height and resolution are left exactly as
they were). -/
theorem position_change_suppresses_radius_branch (isVision : Bool)
    (src : STRSource) (ev : EV) (changes : ChangeSet)
    (hpos : (changes.hasX || changes.hasY) = true) :
    let r := _configureRenderedPointSource isVision src (some ev) changes
    r.2.1.count Action.setResolution = 0 ∧
    r.2.1.count Action.resizeTexture = 0 ∧
    (r.1.bind EV.shadowRenderer).map RenderTexture.width =
      ev.shadowRenderer.map RenderTexture.width ∧
    (r.1.bind EV.shadowRenderer).map RenderTexture.height =
      ev.shadowRenderer.map RenderTexture.height ∧
    (r.1.bind EV.shadowRenderer).map RenderTexture.resolution =
      ev.shadowRenderer.map RenderTexture.resolution := by
  cases hq : ev.shadowQuadMesh <;> cases hr : ev.shadowRenderer <;>
    cases hm : ev.shadowVisionMask <;> cases isVision <;>
      simp [_configureRenderedPointSource, hpos, hq, hr, hm,
        renderShadowMeshToTexture, List.count_append, List.count_cons,
        count_ite_nil, ite_self]

/-- C9 witness: a notification changing both position (`x`) and `radius` on
the ready cache leaves the texture's configured dimensions and resolution
untouched. -/
theorem position_change_suppresses_radius_branch_witness :
    (let r := _configureRenderedPointSource false ⟨3, 4, 60⟩ (some readyEV)
      ⟨true, false, true, false⟩
    r.2.1.count Action.setResolution = 0 ∧
    r.2.1.count Action.resizeTexture = 0 ∧
    (r.1.bind EV.shadowRenderer).map RenderTexture.width =
      readyEV.shadowRenderer.map RenderTexture.width ∧
    (r.1.bind EV.shadowRenderer).map RenderTexture.height =
      readyEV.shadowRenderer.map RenderTexture.height ∧
    (r.1.bind EV.shadowRenderer).map RenderTexture.resolution =
      readyEV.shadowRenderer.map RenderTexture.resolution) :=
  position_change_suppresses_radius_branch false ⟨3, 4, 60⟩ readyEV
    ⟨true, false, true, false⟩ rfl

end ElevatedVision
